import Mathlib

set_option linter.unusedVariables false
set_option allowUnsafeReducibility true

open List

attribute [local semireducible] Rat.ofScientific Rat.mul Rat.add Rat.sub Rat.neg Rat.inv Rat.div

/-!
Verification of the relationship-discovery engine of the
clickzetta-semantic-model-generator repository.

The Lean definitions below are a shallow embedding of the Python sources:

* `ResearchDiscovery`  embeds `research/research_based_relationship_discovery.py`
  (the `AdvancedRelationshipDiscovery` class and `RelationshipCandidate`).
* `AdvancedScoring`    embeds `research/advanced_confidence_scoring.py`
  (the `AdvancedConfidenceScorer` class).
* `Boundary`           embeds `semantic_model_generator/relationships/discovery.py`
  (payload conversion and the public entry-point defaults).

Names are strings, modelled as `List Char` (`Str`); scores are exact
rationals (`ℚ`), so every decimal literal of the source is represented
exactly.  Sample values can be null-bearing, so they are `Option Str`.
-/

abbrev Str := List Char

/-- `s.upper()` of Python: ASCII upper-casing character by character. -/
def upperStr (s : Str) : Str := s.map Char.toUpper

/-- Python `s.split(sep)` for a one-character separator: always returns at
least one (possibly empty) piece; `"A_B".split("_") = ["A","B"]`. -/
def splitChar (sep : Char) : Str → List Str
  | [] => [[]]
  | c :: rest =>
    let r := splitChar sep rest
    if c = sep then [] :: r
    else
      match r with
      | h :: t => (c :: h) :: t
      | [] => [[c]]

/-- Python `s.split(sep, 1)`: split at the first separator only. -/
def splitOnceChar (sep : Char) : Str → List Str
  | [] => [[]]
  | c :: rest =>
    if c = sep then [[], rest]
    else
      match splitOnceChar sep rest with
      | [alone] => [c :: alone]
      | before :: after => (c :: before) :: after
      | [] => [[c]]

/-- Python `sep.join(pieces)` for the one-character separator `"_"`. -/
def joinUnd (pieces : List Str) : Str := List.intercalate ['_'] pieces

/-- Length of the common leading run of two strings (used by the
prefix/suffix similarity of the source). -/
def commonHeadLen : Str → Str → Nat
  | a :: as_, b :: bs => if a = b then 1 + commonHeadLen as_ bs else 0
  | _, _ => 0

/-- Drop a suffix of the given length from the end of a string
(Python `s[:-n]`). -/
def dropTail (n : Nat) (s : Str) : Str := s.take (s.length - n)

/-- One row of the Levenshtein dynamic program (`current_row` of the
source): `prev` is the previous row, `left` the entry just written. -/
def levRowAux (c1 : Char) : Str → List Nat → Nat → List Nat
  | c2 :: s2rest, pj :: prest, left =>
    let pj1 := prest.headD 0
    let cur := min (pj1 + 1) (min (left + 1) (pj + (if c1 = c2 then 0 else 1)))
    cur :: levRowAux c1 s2rest prest cur
  | _, _, _ => []

/-- Iterate the Levenshtein rows over `s1` (the outer loop of
`_levenshtein_distance`). -/
def levLoop (s2 : Str) : Str → List Nat → Nat → List Nat
  | [], prev, _ => prev
  | c1 :: s1rest, prev, i =>
    levLoop s2 s1rest ((i + 1) :: levRowAux c1 s2 prev (i + 1)) (i + 1)

/-- `_levenshtein_distance` of the source (identical in all three Python
modules): row-based dynamic program, with the length swap and the empty
short-string case of the source. -/
def levenshtein_distance (s1 s2 : Str) : Nat :=
  if s1.length < s2.length then
    if s1.length = 0 then s2.length
    else (levLoop s1 s2 (List.range (s1.length + 1)) 0).getLastD 0
  else
    if s2.length = 0 then s1.length
    else (levLoop s2 s1 (List.range (s2.length + 1)) 0).getLastD 0

/-- Python `s.strip()` restricted to whitespace characters. -/
def trimStr (s : Str) : Str :=
  ((s.dropWhile Char.isWhitespace).reverse.dropWhile Char.isWhitespace).reverse

/-- Helper for `removeParens`: state is "currently inside parentheses". -/
def removeParensAux : Bool → Str → Str
  | _, [] => []
  | true, c :: rest =>
    if c = ')' then removeParensAux false rest else removeParensAux true rest
  | false, c :: rest =>
    if c = '(' then removeParensAux true rest else c :: removeParensAux false rest

/-- The `re.sub(r'\(([^)]*)\)', '', ...)`-style removal of parenthesised size
specifications used by `_extract_base_type` (inputs here carry balanced or no
parentheses). -/
def removeParens (s : Str) : Str := removeParensAux false s

/-- Remove every occurrence of a fixed non-empty pattern from a string.
The fuel argument (any bound on the string length) keeps the recursion
structural; on a match the scan continues after the matched occurrence. -/
def removeSubFuel (pat : Str) : Nat → Str → Str
  | _, [] => []
  | 0, s => s
  | fuel + 1, c :: rest =>
    if pat ≠ [] ∧ pat.isPrefixOf (c :: rest) = true then
      removeSubFuel pat fuel ((c :: rest).drop pat.length)
    else
      c :: removeSubFuel pat fuel rest

/-- Remove every occurrence of a fixed non-empty pattern from a string. -/
def removeSub (pat : Str) (s : Str) : Str := removeSubFuel pat s.length s

/-- The `re.sub(r'\s+(NOT\s+NULL|NULL)', '', ...)` step of
`_extract_base_type`, for the single-space annotation forms that occur in
declared types. -/
def removeNullAnn (s : Str) : Str :=
  removeSub (" NULL".toList) (removeSub (" NOT NULL".toList) s)

namespace ResearchDiscovery

/-- A column entry of a table definition dictionary, with the
`col.get('type', '')` / `col.get('is_primary_key', False)` defaults already
resolved. -/
structure ColumnDef where
  name : Str
  type : Str
  is_primary_key : Bool
deriving DecidableEq

/-- A table definition dictionary (`{"table_name": ..., "columns": [...]}`).
Equality of `TableDef` values models Python dict equality, used by the
`if fk_table_def == pk_table_def: continue` skip. -/
structure TableDef where
  table_name : Str
  columns : List ColumnDef
deriving DecidableEq

/-- `RelationshipCandidate` with the five feature scores and the confidence
computed by `__post_init__` (the `relationship_type` is the constant
`MANY_TO_ONE` and is omitted). -/
structure Candidate where
  fk_table : Str
  fk_column : Str
  pk_table : Str
  pk_column : Str
  name_similarity : ℚ
  type_compatibility : ℚ
  value_containment : ℚ
  statistical_score : ℚ
  domain_knowledge_score : ℚ
  confidence : ℚ
deriving DecidableEq

/-- `RelationshipCandidate._calculate_confidence`: the weighted feature
combination with the fixed weights 0.30/0.20/0.25/0.15/0.10, clamped to
`[0, 1]`. -/
def calculate_confidence (ns tc vc ss dk : ℚ) : ℚ :=
  min 1 (max 0 (ns * 0.30 + tc * 0.20 + vc * 0.25 + ss * 0.15 + dk * 0.10))

/-- `_initialize_naming_patterns`: category name → (canonical → variants). -/
def naming_patterns : List (Str × List (Str × List Str)) :=
  [("tpch".toList,
    [("CUSTOMER".toList, ["CUST".toList, "CUSTOMER".toList, "CUSTOMERS".toList]),
     ("SUPPLIER".toList, ["SUPP".toList, "SUPPLIER".toList, "SUPPLIERS".toList]),
     ("PART".toList, ["PART".toList, "PARTS".toList]),
     ("ORDERS".toList, ["ORDER".toList, "ORDERS".toList]),
     ("LINEITEM".toList, ["LINE".toList, "LINEITEM".toList, "LINEITEMS".toList]),
     ("NATION".toList, ["NATION".toList, "NATIONS".toList]),
     ("REGION".toList, ["REGION".toList, "REGIONS".toList])]),
   ("business".toList,
    [("CUSTOMER".toList, ["CLIENT".toList, "CUSTOMER".toList, "CUSTOMERS".toList, "CUST".toList]),
     ("PRODUCT".toList, ["PRODUCT".toList, "PRODUCTS".toList, "ITEM".toList, "ITEMS".toList]),
     ("ORDER".toList, ["ORDER".toList, "ORDERS".toList, "PURCHASE".toList, "PURCHASES".toList]),
     ("EMPLOYEE".toList, ["EMPLOYEE".toList, "EMPLOYEES".toList, "STAFF".toList, "EMP".toList]),
     ("CATEGORY".toList, ["CATEGORY".toList, "CATEGORIES".toList, "CAT".toList]),
     ("LOCATION".toList, ["LOCATION".toList, "LOCATIONS".toList, "PLACE".toList, "ADDRESS".toList])]),
   ("technical".toList,
    [("USER".toList, ["USER".toList, "USERS".toList, "ACCOUNT".toList, "ACCOUNTS".toList]),
     ("SESSION".toList, ["SESSION".toList, "SESSIONS".toList]),
     ("LOG".toList, ["LOG".toList, "LOGS".toList, "EVENT".toList, "EVENTS".toList]),
     ("CONFIG".toList, ["CONFIG".toList, "CONFIGURATION".toList, "SETTING".toList, "SETTINGS".toList])])]

/-- `_initialize_domain_mappings`, in dict insertion order. -/
def domain_mappings : List ((Str × Str) × ℚ) :=
  [(("CUSTOMER".toList, "ORDERS".toList), 0.95),
   (("ORDERS".toList, "LINEITEM".toList), 0.95),
   (("PART".toList, "LINEITEM".toList), 0.90),
   (("SUPPLIER".toList, "LINEITEM".toList), 0.90),
   (("NATION".toList, "CUSTOMER".toList), 0.85),
   (("NATION".toList, "SUPPLIER".toList), 0.85),
   (("REGION".toList, "NATION".toList), 0.90),
   (("LINEITEM".toList, "ORDERS".toList), 0.95),
   (("LINEITEM".toList, "PART".toList), 0.90),
   (("LINEITEM".toList, "SUPPLIER".toList), 0.90),
   (("CUSTOMER".toList, "NATION".toList), 0.85),
   (("SUPPLIER".toList, "NATION".toList), 0.85),
   (("NATION".toList, "REGION".toList), 0.90),
   (("CATEGORY".toList, "PRODUCT".toList), 0.80),
   (("DEPARTMENT".toList, "EMPLOYEE".toList), 0.75),
   (("USER".toList, "SESSION".toList), 0.85),
   (("LOCATION".toList, "EVENT".toList), 0.60),
   (("CONFIG".toList, "USER".toList), 0.55)]

/-- The base types that receive a perfect self-compatibility entry in
`_initialize_type_matrix`. -/
def matrix_base_types : List Str :=
  ["NUMBER".toList, "INTEGER".toList, "BIGINT".toList, "STRING".toList,
   "VARCHAR".toList, "TEXT".toList, "DATE".toList, "DATETIME".toList,
   "TIMESTAMP".toList]

/-- The `compatible_types` pair list of `_initialize_type_matrix`. -/
def compatible_types : List (Str × Str) :=
  [("NUMBER".toList, "INTEGER".toList), ("INTEGER".toList, "NUMBER".toList),
   ("NUMBER".toList, "BIGINT".toList), ("BIGINT".toList, "NUMBER".toList),
   ("STRING".toList, "VARCHAR".toList), ("VARCHAR".toList, "STRING".toList),
   ("STRING".toList, "TEXT".toList), ("TEXT".toList, "STRING".toList),
   ("DATE".toList, "DATETIME".toList), ("DATETIME".toList, "DATE".toList),
   ("DATE".toList, "TIMESTAMP".toList), ("TIMESTAMP".toList, "DATE".toList)]

/-- `_initialize_type_matrix`: perfect matches score 1.0, compatible pairs
score 0.9 (the key sets are disjoint, so insertion order is immaterial). -/
def type_compatibility_matrix : List ((Str × Str) × ℚ) :=
  matrix_base_types.map (fun t => ((t, t), (1 : ℚ))) ++
    compatible_types.map (fun p => (p, (0.9 : ℚ)))

/-- Strip the first matching suffix of the list, as the
`for suffix in [...]: if remaining.endswith(suffix): return ...` loops do. -/
def strip_first_matching : List Str → Str → Str
  | [], s => s
  | suf :: rest, s =>
    if suf.isSuffixOf s then dropTail suf.length s else strip_first_matching rest s

/-- `_extract_entity_core` of `research_based_relationship_discovery.py`:
drop a leading `_`-separated token of length ≤ 3, then strip one suffix
among `KEY`, `ID`, `NUM`, `NO`, `CODE`. -/
def extract_entity_core (column_name : Str) : Str :=
  let remaining :=
    if column_name.contains '_' then
      let parts := splitChar '_' column_name
      if 2 ≤ parts.length ∧ (parts.headD []).length ≤ 3 then joinUnd (parts.drop 1)
      else column_name
    else column_name
  strip_first_matching
    ["KEY".toList, "ID".toList, "NUM".toList, "NO".toList, "CODE".toList] remaining

/-- `_are_domain_entities_related`: both entities (or the first entity and
the table name) map into the same canonical's variant set of any category. -/
def are_domain_entities_related (entity1 entity2 table_name : Str) : Bool :=
  naming_patterns.any (fun cat =>
    cat.2.any (fun cv =>
      let entity1_matches := entity1 = cv.1 || cv.2.contains entity1
      let entity2_matches := entity2 = cv.1 || cv.2.contains entity2
      let table_matches := table_name = cv.1 || cv.2.contains table_name
      (entity1_matches && entity2_matches) || (entity1_matches && table_matches)))

/-- `_matches_tpch_pattern`: the `X_ENTITYKEY` prefix convention check. -/
def matches_tpch_pattern (fk_col pk_col pk_table : Str) : Bool :=
  if fk_col.contains '_' && pk_col.contains '_' then
    let fk_parts := splitOnceChar '_' fk_col
    let pk_parts := splitOnceChar '_' pk_col
    if fk_parts.length = 2 ∧ pk_parts.length = 2 then
      let fk_entity := fk_parts.getD 1 []
      let pk_entity := pk_parts.getD 1 []
      if fk_entity = pk_entity then true
      else
        let fk_core := extract_entity_core fk_entity
        let pk_core := extract_entity_core pk_entity
        let tpch_mappings := (naming_patterns.headD ([], [])).2
        tpch_mappings.any (fun cv =>
          (cv.2.contains fk_core && pk_table = cv.1) ||
          (cv.2.contains pk_core && pk_table = cv.1))
    else false
  else false

/-- `_calculate_prefix_suffix_similarity`: common leading plus common
trailing run lengths over the longer length, capped at 1. -/
def calculate_prefix_suffix_similarity (str1 str2 : Str) : ℚ :=
  let common_head := commonHeadLen str1 str2
  let common_tail := commonHeadLen str1.reverse str2.reverse
  let total_common := common_head + common_tail
  let max_length := max str1.length str2.length
  if max_length = 0 then 0
  else min 1 ((total_common : ℚ) / (max_length : ℚ))

/-- `_calculate_edit_distance_similarity`: Levenshtein over the strings with
underscores removed. -/
def calculate_edit_distance_similarity (str1 str2 : Str) : ℚ :=
  let norm1 := str1.filter (fun c => c ≠ '_')
  let norm2 := str2.filter (fun c => c ≠ '_')
  if norm1 = [] ∨ norm2 = [] then 0
  else 1 - (levenshtein_distance norm1 norm2 : ℚ) / (max norm1.length norm2.length : ℚ)

/-- `calculate_name_similarity` of `AdvancedRelationshipDiscovery`: the
seven-step cascade (exact, core, domain-variant, TPC-H pattern,
prefix/suffix, edit distance). -/
def calculate_name_similarity (fk_col pk_col fk_table pk_table : Str) : ℚ :=
  let fk_col_upper := upperStr fk_col
  let pk_col_upper := upperStr pk_col
  let pk_table_upper := upperStr pk_table
  if fk_col_upper = pk_col_upper then 1
  else
    let fk_core := extract_entity_core fk_col_upper
    let pk_core := extract_entity_core pk_col_upper
    if fk_core = pk_core ∧ fk_core ≠ [] then 0.95
    else if are_domain_entities_related fk_core pk_core pk_table_upper then 0.90
    else if matches_tpch_pattern fk_col_upper pk_col_upper pk_table_upper then 0.88
    else
      let prefix_score := calculate_prefix_suffix_similarity fk_col_upper pk_col_upper
      if 0.7 < prefix_score then prefix_score
      else max prefix_score (calculate_edit_distance_similarity fk_col_upper pk_col_upper)

/-- The `type_mappings` dictionary of `_extract_base_type`. -/
def type_mappings : List (Str × Str) :=
  [("INT".toList, "INTEGER".toList), ("BIGINT".toList, "NUMBER".toList),
   ("DECIMAL".toList, "NUMBER".toList), ("NUMERIC".toList, "NUMBER".toList),
   ("FLOAT".toList, "NUMBER".toList), ("DOUBLE".toList, "NUMBER".toList),
   ("VARCHAR".toList, "STRING".toList), ("CHAR".toList, "STRING".toList),
   ("TEXT".toList, "STRING".toList), ("TIMESTAMP".toList, "DATE".toList),
   ("DATETIME".toList, "DATE".toList)]

/-- `_extract_base_type`: uppercase, drop parenthesised size specifications
and `NOT NULL`/`NULL` annotations, then map through `type_mappings`. -/
def extract_base_type (type_str : Str) : Str :=
  if type_str = [] then "UNKNOWN".toList
  else
    let clean := trimStr (removeNullAnn (trimStr (removeParens (upperStr type_str))))
    match type_mappings.find? (fun e => decide (e.1 = clean)) with
    | some e => e.2
    | none => clean

/-- `calculate_type_compatibility`: matrix lookup with default 0.0. -/
def calculate_type_compatibility (fk_type pk_type : Str) : ℚ :=
  let fk_base := extract_base_type fk_type
  let pk_base := extract_base_type pk_type
  match type_compatibility_matrix.find? (fun e => decide (e.1 = (fk_base, pk_base))) with
  | some e => e.2
  | none => 0

/-- `calculate_value_containment` of the research module: the raw containment
ratio of the two sample sets (`None` entries discarded by `str(v) for v if v
is not None`), 0.5 when either sample list is empty. -/
def calculate_value_containment (fk_values pk_values : List (Option Str)) : ℚ :=
  if fk_values = [] ∨ pk_values = [] then 0.5
  else
    let fk_set := (fk_values.filterMap id).dedup
    let pk_set := (pk_values.filterMap id).dedup
    if fk_set = [] then 0.5
    else if pk_set = [] then 0
    else ((fk_set.filter (fun v => pk_set.contains v)).length : ℚ) / (fk_set.length : ℚ)

/-- `calculate_statistical_score`: mean of the uniqueness, cardinality and
null-fraction heuristics (`set()` keeps `None` as an element, as in
Python). -/
def calculate_statistical_score (fk_values pk_values : List (Option Str)) : ℚ :=
  if fk_values = [] ∨ pk_values = [] then 0.5
  else
    let fk_unique_ratio := (fk_values.dedup.length : ℚ) / (fk_values.length : ℚ)
    let pk_unique_ratio := (pk_values.dedup.length : ℚ) / (pk_values.length : ℚ)
    let uniqueness_score := if 0.8 < pk_unique_ratio then 1 - |fk_unique_ratio - 0.5| else 0.3
    let cardinality_ratio := (fk_values.length : ℚ) / (pk_values.length : ℚ)
    let cardinality_score := if 1 ≤ cardinality_ratio then 1 else cardinality_ratio
    let fk_null_ratio :=
      ((fk_values.filter (fun v => decide (v = none))).length : ℚ) / (fk_values.length : ℚ)
    let null_score := 1 - min fk_null_ratio 0.5
    (uniqueness_score + cardinality_score + null_score) / 3

/-- The `business_indicators` table of `calculate_domain_knowledge_score`. -/
def business_indicators : List (Str × List Str) :=
  [("CUSTOMER".toList, ["ORDER".toList, "PURCHASE".toList, "ACCOUNT".toList]),
   ("PRODUCT".toList, ["ORDER".toList, "PURCHASE".toList, "INVENTORY".toList]),
   ("SUPPLIER".toList, ["PRODUCT".toList, "INVENTORY".toList, "PURCHASE".toList]),
   ("EMPLOYEE".toList, ["ORDER".toList, "TASK".toList, "PROJECT".toList])]

/-- `_table_matches_entity`: the entity's variant list (in any category)
contains the table name exactly or as a substring. -/
def table_matches_entity (table_name entity : Str) : Bool :=
  naming_patterns.any (fun cat =>
    cat.2.any (fun cv =>
      cv.1 = entity &&
        (cv.2.contains table_name || cv.2.any (fun v => decide (v <:+: table_name)))))

/-- `calculate_domain_knowledge_score`: first matching domain mapping, else
the 0.7 business-indicator fallback, else 0.1. -/
def calculate_domain_knowledge_score (fk_table pk_table : Str) : ℚ :=
  let fk_table_upper := upperStr fk_table
  let pk_table_upper := upperStr pk_table
  match domain_mappings.find? (fun e =>
      (decide (fk_table_upper = e.1.1) && decide (pk_table_upper = e.1.2)) ||
      (table_matches_entity fk_table_upper e.1.1 &&
        table_matches_entity pk_table_upper e.1.2)) with
  | some e => e.2
  | none =>
    match business_indicators.find? (fun bi =>
        table_matches_entity pk_table_upper bi.1 &&
          bi.2.any (fun rel => table_matches_entity fk_table_upper rel)) with
    | some _ => 0.7
    | none => 0.1

/-- Per-table, per-column sample data
(`sample_data[table][column] -> values`). -/
abbrev SampleData := List (Str × List (Str × List (Option Str)))

/-- `sample_data.get(table, {}).get(column, [])`. -/
def lookup_samples (sd : SampleData) (table column : Str) : List (Option Str) :=
  match sd.find? (fun e => decide (e.1 = table)) with
  | some (_, cols) =>
    match cols.find? (fun e => decide (e.1 = column)) with
    | some (_, vals) => vals
    | none => []
  | none => []

/-- `_evaluate_candidate`: score the five features and build the candidate
(with the `__post_init__` confidence). -/
def evaluate_candidate (fk_table : Str) (fk_col : ColumnDef) (pk_table : Str)
    (pk_col : ColumnDef) (sample_data : Option SampleData) : Candidate :=
  let fk_values := match sample_data with
    | some sd => lookup_samples sd fk_table fk_col.name
    | none => []
  let pk_values := match sample_data with
    | some sd => lookup_samples sd pk_table pk_col.name
    | none => []
  let ns := calculate_name_similarity fk_col.name pk_col.name fk_table pk_table
  let tc := calculate_type_compatibility fk_col.type pk_col.type
  let vc := calculate_value_containment fk_values pk_values
  let ss := calculate_statistical_score fk_values pk_values
  let dk := calculate_domain_knowledge_score fk_table pk_table
  { fk_table := fk_table, fk_column := fk_col.name,
    pk_table := pk_table, pk_column := pk_col.name,
    name_similarity := ns, type_compatibility := tc,
    value_containment := vc, statistical_score := ss,
    domain_knowledge_score := dk,
    confidence := calculate_confidence ns tc vc ss dk }

/-- The grouping key of `_apply_intelligent_filtering`
(`fk_key = (candidate.fk_table, candidate.fk_column)`). -/
def fk_key (c : Candidate) : Str × Str := (c.fk_table, c.fk_column)

/-- Keys in order of first occurrence (the iteration order of a Python
`defaultdict` populated by a left-to-right loop). -/
def firstKeys {α : Type} [DecidableEq α] : List α → List α
  | [] => []
  | k :: ks => k :: (firstKeys ks).filter (fun x => decide (x ≠ k))

/-- The `fk_groups` mapping of `_apply_intelligent_filtering`: a
`defaultdict(list)` filled by one pass over the candidates, so keys appear
in first-occurrence order and each group lists its candidates in input
order. -/
def fk_groups (candidates : List Candidate) : List ((Str × Str) × List Candidate) :=
  (firstKeys (candidates.map fk_key)).map
    (fun k => (k, candidates.filter (fun c => decide (fk_key c = k))))

/-- `_meets_quality_threshold`: name similarity ≥ 0.7, or domain score
≥ 0.8, or at least two strong indicators. -/
def meets_quality_threshold (c : Candidate) : Bool :=
  if 0.7 ≤ c.name_similarity then true
  else if 0.8 ≤ c.domain_knowledge_score then true
  else
    let strong_indicators : Nat :=
      (if 0.9 ≤ c.type_compatibility then 1 else 0) +
      (if 0.8 ≤ c.value_containment then 1 else 0) +
      (if 0.6 ≤ c.domain_knowledge_score then 1 else 0)
    2 ≤ strong_indicators

/-- `_is_significantly_different`: different PK target table, or name
similarities more than 0.2 apart. -/
def is_significantly_different (c1 c2 : Candidate) : Bool :=
  if c1.pk_table ≠ c2.pk_table then true
  else if 0.2 < |c1.name_similarity - c2.name_similarity| then true
  else false

/-- The acceptance test applied to every non-best member of a group in
`_apply_intelligent_filtering` (confidence within 0.1 of the best,
significantly different, and meeting the quality threshold). -/
def extra_accept (best c : Candidate) : Bool :=
  decide (best.confidence - 0.1 ≤ c.confidence) &&
    is_significantly_different c best && meets_quality_threshold c

/-- Stable descending insertion by confidence: a new element lands after
every element of equal or higher confidence. -/
def insertDesc (c : Candidate) : List Candidate → List Candidate
  | [] => [c]
  | d :: ds => if d.confidence < c.confidence then c :: d :: ds else d :: insertDesc c ds

/-- `list.sort(key=lambda x: x.confidence, reverse=True)`: a stable sort by
descending confidence (Python's sort is stable). -/
def sortByConfDesc (l : List Candidate) : List Candidate :=
  l.foldl (fun acc c => insertDesc c acc) []

/-- The per-group body of `_apply_intelligent_filtering`, applied to the
already-sorted group: keep the best candidate when it meets the quality
threshold, then every later candidate passing `extra_accept`. -/
def select_from_sorted : List Candidate → List Candidate
  | [] => []
  | best :: rest =>
    (if meets_quality_threshold best then [best] else []) ++ rest.filter (extra_accept best)

/-- `_apply_intelligent_filtering`: group by FK column, sort each group by
descending confidence, keep the gated best plus tie-band extras. -/
def apply_intelligent_filtering (candidates : List Candidate) : List Candidate :=
  (fk_groups candidates).flatMap (fun kg => select_from_sorted (sortByConfDesc kg.2))

/-- The innermost candidate generation of `discover_relationships`: all
(FK column × declared-PK column) pairs of an ordered table pair, skipping
identical table definitions, skipping the same-named column of a same-named
table, and keeping only candidates at or above `min_confidence`. -/
def gen_pair (sample_data : Option SampleData) (min_confidence : ℚ)
    (fk_table_def pk_table_def : TableDef) : List Candidate :=
  if fk_table_def = pk_table_def then []
  else
    fk_table_def.columns.flatMap (fun fk_col =>
      (pk_table_def.columns.filter (fun col => col.is_primary_key)).flatMap (fun pk_col =>
        if fk_table_def.table_name = pk_table_def.table_name ∧ fk_col.name = pk_col.name then []
        else
          let candidate := evaluate_candidate fk_table_def.table_name fk_col
            pk_table_def.table_name pk_col sample_data
          if min_confidence ≤ candidate.confidence then [candidate] else []))

/-- The candidate enumeration loop of `discover_relationships`. -/
def gen_candidates (tables : List TableDef) (sample_data : Option SampleData)
    (min_confidence : ℚ) : List Candidate :=
  tables.flatMap (fun fk_table_def =>
    tables.flatMap (fun pk_table_def =>
      gen_pair sample_data min_confidence fk_table_def pk_table_def))

/-- `AdvancedRelationshipDiscovery.discover_relationships`: enumerate,
filter, sort by descending confidence, truncate to `max_candidates`. -/
def discover_relationships (tables : List TableDef) (sample_data : Option SampleData)
    (min_confidence : ℚ) (max_candidates : Nat) : List Candidate :=
  (sortByConfDesc
    (apply_intelligent_filtering (gen_candidates tables sample_data min_confidence))).take
    max_candidates

end ResearchDiscovery

namespace AdvancedScoring

/-- `tpch_entities` of `AdvancedConfidenceScorer`. -/
def tpch_entities : List (Str × List Str) :=
  [("CUSTOMER".toList, ["CUST".toList, "C".toList]),
   ("SUPPLIER".toList, ["SUPP".toList, "S".toList]),
   ("PART".toList, ["P".toList]),
   ("ORDERS".toList, ["ORDER".toList, "O".toList]),
   ("LINEITEM".toList, ["LINE".toList, "L".toList]),
   ("PARTSUPP".toList, ["PS".toList]),
   ("NATION".toList, ["N".toList]),
   ("REGION".toList, ["R".toList])]

/-- The evidence weights of `AdvancedConfidenceScorer.evidence_weights`
(name, type, containment, schema, domain, statistical, cardinality). -/
def name_weight : ℚ := 0.25

def type_weight : ℚ := 0.15

def containment_weight : ℚ := 0.20

def schema_weight : ℚ := 0.15

def domain_weight : ℚ := 0.15

def statistical_weight : ℚ := 0.05

def cardinality_weight : ℚ := 0.05

/-- `_extract_core_entity` of `advanced_confidence_scoring.py`: uppercase,
drop a leading `_`-token of length ≤ 2 (single split), then strip one
suffix among `KEY`, `ID`, `NUM`, `NO`. -/
def extract_core_entity (column_name : Str) : Str :=
  if column_name = [] then []
  else
    let name_upper := upperStr column_name
    let core_part :=
      if name_upper.contains '_' then
        let parts := splitOnceChar '_' name_upper
        if parts.length = 2 ∧ (parts.headD []).length ≤ 2 then parts.getD 1 []
        else name_upper
      else name_upper
    ResearchDiscovery.strip_first_matching
      ["KEY".toList, "ID".toList, "NUM".toList, "NO".toList] core_part

/-- `_are_entity_variants`: both entities in the same variant list, or one
is a canonical whose variant list contains the other. -/
def are_entity_variants (entity1 entity2 : Str) : Bool :=
  if entity1 = [] ∨ entity2 = [] then false
  else
    tpch_entities.any (fun ev =>
      (ev.2.contains entity1 && ev.2.contains entity2) ||
      (entity1 = ev.1 && ev.2.contains entity2) ||
      (entity2 = ev.1 && ev.2.contains entity1))

/-- `_calculate_levenshtein_similarity`: uppercase, drop `_` and `-`,
return 1.0 on equality, else the normalized Levenshtein similarity floored
at 0. -/
def calculate_levenshtein_similarity (s1 s2 : Str) : ℚ :=
  if s1 = [] ∨ s2 = [] then 0
  else
    let norm1 := (upperStr s1).filter (fun c => c ≠ '_' ∧ c ≠ '-')
    let norm2 := (upperStr s2).filter (fun c => c ≠ '_' ∧ c ≠ '-')
    if norm1 = norm2 then 1
    else if max norm1.length norm2.length = 0 then 0
    else
      max 0 (1 - (levenshtein_distance norm1 norm2 : ℚ) /
        (max norm1.length norm2.length : ℚ))

/-- The score of `calculate_name_similarity_evidence`: exact match 1.0,
core match 0.95, entity-variant match 0.90, then the banded transformation
of the Levenshtein similarity. -/
def name_similarity_evidence_score (fk_column pk_column : Str) : ℚ :=
  let fk_core := extract_core_entity fk_column
  let pk_core := extract_core_entity pk_column
  let exact_match := upperStr fk_column = upperStr pk_column
  let core_match := if fk_core ≠ [] ∧ pk_core ≠ [] then fk_core = pk_core else False
  let entity_variant_match := are_entity_variants fk_core pk_core
  let levenshtein_sim := calculate_levenshtein_similarity fk_column pk_column
  if exact_match then 1
  else if core_match then 0.95
  else if entity_variant_match then 0.90
  else if 0.8 ≤ levenshtein_sim then 0.70 + (levenshtein_sim - 0.8) * 0.5
  else if 0.6 ≤ levenshtein_sim then 0.40 + (levenshtein_sim - 0.6) * 1.5
  else min 0.40 levenshtein_sim

/-- The score of `calculate_value_containment_evidence`: when both sample
lists are given the containment ratio is recomputed from them (0.0 for an
empty FK set), otherwise the caller-supplied `containment_ratio` (whose
Python default is 0.0) is used; either way the ratio is pushed through the
piecewise band map. -/
def value_containment_evidence_score (fk_values pk_values : Option (List Str))
    (containment_ratio : ℚ) : ℚ :=
  let ratio :=
    match fk_values, pk_values with
    | some fk, some pk =>
      let fk_set := fk.dedup
      let pk_set := pk.dedup
      if fk_set.length = 0 then 0
      else ((fk_set.filter (fun v => pk_set.contains v)).length : ℚ) / (fk_set.length : ℚ)
    | _, _ => containment_ratio
  if 0.95 ≤ ratio then 1
  else if 0.80 ≤ ratio then 0.8 + (ratio - 0.80) * 1.33
  else if 0.60 ≤ ratio then 0.5 + (ratio - 0.60) * 1.5
  else if 0.30 ≤ ratio then 0.2 + (ratio - 0.30) * 1.0
  else ratio * 0.67

/-- The weighted combination of `calculate_comprehensive_confidence`: the
weighted sum of the seven evidence scores divided by the total weight
(statistical and cardinality are the constant placeholders 0.5 in the
source, but are kept as arguments of the combination). -/
def comprehensive_confidence (ns tc sp dk vc st ca : ℚ) : ℚ :=
  let weighted_sum := ns * name_weight + tc * type_weight + vc * containment_weight +
    sp * schema_weight + dk * domain_weight + st * statistical_weight +
    ca * cardinality_weight
  let total_weight := name_weight + type_weight + containment_weight + schema_weight +
    domain_weight + statistical_weight + cardinality_weight
  weighted_sum / total_weight

end AdvancedScoring

namespace Boundary

/-- A Python value as it can appear in a table-definition payload entry
(tuples are folded into `vList`; a missing dictionary key is `vNone`, since
`dict.get` returns `None`). -/
inductive PyVal where
  | vNone : PyVal
  | vStr : Str → PyVal
  | vBytes : List Nat → PyVal
  | vInt : Int → PyVal
  | vBool : Bool → PyVal
  | vList : List PyVal → PyVal

/-- Python truthiness for the payload values above. -/
def truthy : PyVal → Bool
  | .vNone => false
  | .vStr s => !s.isEmpty
  | .vBytes b => !b.isEmpty
  | .vInt n => decide (n ≠ 0)
  | .vBool b => b
  | .vList l => !l.isEmpty

/-- Python `str(v)` for the payload values above (rendering container and
bytes values is schematic; only scalar renderings are exercised). -/
def pyStr : PyVal → Str
  | .vNone => "None".toList
  | .vStr s => s
  | .vBytes _ => "bytes".toList
  | .vInt n => (toString n).toList
  | .vBool true => "True".toList
  | .vBool false => "False".toList
  | .vList _ => "list".toList

/-- `isinstance(v, Sequence)` for the payload values above (strings, bytes
and lists are sequences; `None`, ints and bools are not). -/
def isSequence : PyVal → Bool
  | .vStr _ => true
  | .vBytes _ => true
  | .vList _ => true
  | _ => false

/-- `isinstance(v, (str, bytes))`. -/
def isStrOrBytes : PyVal → Bool
  | .vStr _ => true
  | .vBytes _ => true
  | _ => false

/-- The element list of a sequence value. -/
def elems : PyVal → List PyVal
  | .vList l => l
  | _ => []

/-- The sample-value coercion of `_tables_payload_to_raw_tables`
(lines 183–187): select `sample_values` or, when falsy, `values`; keep the
result only when it is a sequence that is not a string or bytes, converting
every element with `str`. -/
def coerce_samples (sample_values values : PyVal) : Option (List Str) :=
  let v := if truthy sample_values then sample_values else values
  if isSequence v && !(isStrOrBytes v) then some ((elems v).map pyStr)
  else none

/-- A column entry of the payload, with the `name`/`column_name`/`field`
and `type`/`data_type` key chains already resolved to the selected raw
value (`none` when every key is missing or falsy). -/
structure ColumnPayload where
  name : Option Str
  type : Option Str
  sample_values : PyVal
  values : PyVal
  is_primary_key : Bool

/-- A table entry of the payload: `identifier` is the value selected by the
`table_name`/`name`/`table` chain (empty when all missing), `columns` is
`none` when the `columns` key is missing or not a sequence. -/
structure TablePayload where
  identifier : Str
  columns : Option (List ColumnPayload)

/-- A converted column (the fields of `data_types.Column` used here). -/
structure RawColumn where
  column_name : Str
  column_type : Str
  values : Option (List Str)
  is_primary_key : Bool
deriving DecidableEq

/-- A converted table (the fields of `data_types.Table` used here). -/
structure RawTable where
  name : Str
  columns : List RawColumn
deriving DecidableEq

/-- `_split_table_identifier`: split on `.`, strip each part, drop empty
parts; three parts are workspace/schema/table, two are schema/table,
otherwise the first part is the table. -/
def split_table_identifier_parts (identifier : Str) : List Str :=
  ((splitChar '.' identifier).map trimStr).filter (fun p => decide (p ≠ []))

/-- The table component selected by `_split_table_identifier` (`none`
models the uncaught `IndexError` on an identifier with no parts). -/
def identifier_table_part (identifier : Str) : Option Str :=
  match split_table_identifier_parts identifier with
  | [w, s, t] => let _ := w; let _ := s; some t
  | [s, t] => let _ := s; some t
  | [] => none
  | p0 :: _ => some p0

/-- Conversion of one column entry; a missing or empty name raises
(`ValueError`), modelled by `Except.error`. -/
def convert_column (table_name : Str) (col : ColumnPayload) : Except Str RawColumn :=
  let column_name := trimStr (col.name.getD [])
  if column_name = [] then
    .error ("Column definition in table missing name: ".toList ++ table_name)
  else
    let column_type := trimStr (col.type.getD ("STRING".toList))
    .ok { column_name := column_name, column_type := column_type,
          values := coerce_samples col.sample_values col.values,
          is_primary_key := col.is_primary_key }

/-- Sequential conversion of the column entries, stopping at the first
failure (an uncaught exception aborts the loop). -/
def convert_columns (table_name : Str) : List ColumnPayload → Except Str (List RawColumn)
  | [] => .ok []
  | col :: rest =>
    match convert_column table_name col with
    | .error e => .error e
    | .ok c =>
      match convert_columns table_name rest with
      | .error e => .error e
      | .ok cs => .ok (c :: cs)

/-- Conversion of one table entry of `_tables_payload_to_raw_tables`: the
`raise ValueError`/`TypeError` exits of the source are modelled by
`Except.error`. -/
def convert_table (t : TablePayload) : Except Str RawTable :=
  let raw_table_identifier := trimStr t.identifier
  if raw_table_identifier = [] then
    .error ("Table definition missing table_name".toList)
  else
    match identifier_table_part raw_table_identifier with
    | none => .error ("IndexError: unparseable table identifier".toList)
    | some identifier_table =>
      let table_name := trimStr identifier_table
      if table_name = [] then
        .error ("Unable to parse table name".toList)
      else
        match t.columns with
        | none => .error ("Table must include a non-empty columns list".toList)
        | some [] => .error ("Table must include a non-empty columns list".toList)
        | some cols =>
          match convert_columns table_name cols with
          | .error e => .error e
          | .ok columns => .ok { name := upperStr table_name, columns := columns }

/-- `_tables_payload_to_raw_tables`: convert every table entry in order;
the first uncaught exception aborts the whole batch. -/
def tables_payload_to_raw_tables : List TablePayload → Except Str (List RawTable)
  | [] => .ok []
  | t :: rest =>
    match convert_table t with
    | .error e => .error e
    | .ok raw =>
      match tables_payload_to_raw_tables rest with
      | .error e => .error e
      | .ok raws => .ok (raw :: raws)

/-- Whether an `Except` result is a success. -/
def exceptOk {ε α : Type} : Except ε α → Bool
  | .ok _ => true
  | .error _ => false

/-- A table entry is malformed in the sense of the error-handling policy:
missing table name, unparseable identifier, or a missing/empty column
list. -/
def malformed_table (t : TablePayload) : Prop :=
  trimStr t.identifier = [] ∨
    identifier_table_part (trimStr t.identifier) = none ∨
    t.columns = none ∨ t.columns = some []

/-- The tuning-knob defaults of one public entry point of
`relationships/discovery.py`. -/
structure EntryPointDefaults where
  min_confidence : ℚ
  timeout_seconds : Option ℚ
  max_tables : Option Nat
deriving DecidableEq

/-- Signature defaults of `discover_relationships_from_tables`. -/
def from_tables_defaults : EntryPointDefaults :=
  { min_confidence := 0.5, timeout_seconds := some 30.0, max_tables := none }

/-- Signature defaults of `discover_relationships_from_table_definitions`. -/
def from_table_definitions_defaults : EntryPointDefaults :=
  { min_confidence := 0.5, timeout_seconds := some 15.0, max_tables := none }

/-- Signature defaults of `discover_relationships_from_schema`. -/
def from_schema_defaults : EntryPointDefaults :=
  { min_confidence := 0.5, timeout_seconds := some 30.0, max_tables := some 60 }

end Boundary

namespace ResearchDiscovery

/-- The quality gate as the specification states it: name similarity at
least 0.7, or domain prior at least 0.8, or at least two of
{type compatibility ≥ 0.9, value containment ≥ 0.8, domain prior ≥ 0.6}. -/
def quality_gate_spec (c : Candidate) : Prop :=
  0.7 ≤ c.name_similarity ∨ 0.8 ≤ c.domain_knowledge_score ∨
    ((0.9 ≤ c.type_compatibility ∧ 0.8 ≤ c.value_containment) ∨
     (0.9 ≤ c.type_compatibility ∧ 0.6 ≤ c.domain_knowledge_score) ∨
     (0.8 ≤ c.value_containment ∧ 0.6 ≤ c.domain_knowledge_score))

instance (c : Candidate) : Decidable (quality_gate_spec c) := by
  unfold quality_gate_spec; infer_instance

end ResearchDiscovery

namespace AdvancedScoring

/-- The containment ratio as the specification states it:
`|fk_samples ∩ pk_samples| / |fk_samples|` over the distinct sampled
values, 0 when the FK side is empty. -/
def containment_ratio_spec (fk pk : List Str) : ℚ :=
  if fk.dedup = [] then 0
  else ((fk.dedup.inter pk.dedup).length : ℚ) / (fk.dedup.length : ℚ)

/-- The piecewise band map of the amended §4.6.3, written from low ratios
to high: `r < 0.30 → 0.67·r`, `[0.30, 0.60) → 0.2 + (r − 0.30)`,
`[0.60, 0.80) → 0.5 + 1.5·(r − 0.60)`, `[0.80, 0.95) → 0.8 + 1.33·(r − 0.80)`,
`r ≥ 0.95 → 1`. -/
def containment_band_spec (r : ℚ) : ℚ :=
  if r < 0.30 then 0.67 * r
  else if r < 0.60 then 0.2 + (r - 0.30)
  else if r < 0.80 then 0.5 + 1.5 * (r - 0.60)
  else if r < 0.95 then 0.8 + 1.33 * (r - 0.80)
  else 1

/-- The name-similarity score of the amended §4.6.1, with the precedence
(exact 1.0, core 0.95, variant 0.90) and the banded Levenshtein fallback:
`L ≥ 0.8 → 0.70 + 0.5·(L − 0.8)`, `0.6 ≤ L < 0.8 → 0.40 + 1.5·(L − 0.6)`,
otherwise `min 0.40 L`. -/
def name_similarity_spec (fk_column pk_column : Str) : ℚ :=
  if upperStr fk_column = upperStr pk_column then 1
  else
    let fk_core := extract_core_entity fk_column
    let pk_core := extract_core_entity pk_column
    if fk_core = pk_core ∧ fk_core ≠ [] ∧ pk_core ≠ [] then 0.95
    else if are_entity_variants fk_core pk_core then 0.90
    else
      let levenshtein_sim := calculate_levenshtein_similarity fk_column pk_column
      if 0.8 ≤ levenshtein_sim then 0.70 + 0.5 * (levenshtein_sim - 0.8)
      else if 0.6 ≤ levenshtein_sim then 0.40 + 1.5 * (levenshtein_sim - 0.6)
      else min 0.40 levenshtein_sim

end AdvancedScoring

namespace Examples

open ResearchDiscovery

/-- Concrete columns used by the counterexamples and witnesses: four tables
whose single columns all share the core entity `CUST`. -/
def colA : ColumnDef := ⟨"A_CUSTKEY".toList, "NUMBER".toList, false⟩

def colB : ColumnDef := ⟨"B_CUSTKEY".toList, "NUMBER".toList, true⟩

def colC : ColumnDef := ⟨"C_CUSTKEY".toList, "NUMBER".toList, false⟩

def colD : ColumnDef := ⟨"D_CUSTKEY".toList, "NUMBER".toList, true⟩

def tblA : TableDef := ⟨"TA".toList, [colA]⟩

def tblB : TableDef := ⟨"TB".toList, [colB]⟩

def tblC : TableDef := ⟨"TC".toList, [colC]⟩

def tblD : TableDef := ⟨"TD".toList, [colD]⟩

/-- Two distinct table definitions sharing the table name `T`. -/
def dupT1 : TableDef := ⟨"T".toList, [⟨"C_CUSTKEY".toList, "NUMBER".toList, false⟩]⟩

def dupT2 : TableDef := ⟨"T".toList, [⟨"O_CUSTKEY".toList, "NUMBER".toList, true⟩]⟩

/-- The two candidates of the FK group `(TA, A_CUSTKEY)` when the four
clone tables are analysed (best first, tie at equal confidence). -/
def candAB : Candidate := evaluate_candidate tblA.table_name colA tblB.table_name colB none

def candAD : Candidate := evaluate_candidate tblA.table_name colA tblD.table_name colD none

/-- A well-formed table payload. -/
def goodPayload : Boundary.TablePayload :=
  { identifier := "USERS".toList,
    columns := some [{ name := some ("ID".toList), type := some ("NUMBER".toList),
                       sample_values := Boundary.PyVal.vNone,
                       values := Boundary.PyVal.vNone, is_primary_key := true }] }

/-- A malformed table payload: the `columns` key is missing. -/
def badPayload : Boundary.TablePayload :=
  { identifier := "ORPHAN".toList, columns := none }

end Examples

namespace ResearchDiscovery

/-- Descending-confidence comparison (the sort order of the pipeline). -/
def confGE (a b : Candidate) : Prop := b.confidence ≤ a.confidence

/-- Distinct confidences (the no-tie side condition of §4.10). -/
def confNE (a b : Candidate) : Prop := a.confidence ≠ b.confidence

instance (a b : Candidate) : Decidable (confNE a b) := by
  unfold confNE; infer_instance

end ResearchDiscovery

namespace ResearchDiscovery

theorem meets_quality_threshold_iff (c : Candidate) :
    meets_quality_threshold c = true ↔ quality_gate_spec c := by
  unfold meets_quality_threshold quality_gate_spec
  by_cases h1 : (0.7 : ℚ) ≤ c.name_similarity
  · simp [h1]
  · by_cases h2 : (0.8 : ℚ) ≤ c.domain_knowledge_score
    · simp [h1, h2]
    · have h2' : ¬(0.8 : ℚ) ≤ c.domain_knowledge_score := h2
      by_cases h3 : (0.9 : ℚ) ≤ c.type_compatibility <;>
        by_cases h4 : (0.8 : ℚ) ≤ c.value_containment <;>
        by_cases h5 : (0.6 : ℚ) ≤ c.domain_knowledge_score <;>
        simp [h1, h2, h3, h4, h5]

theorem insertDesc_perm (c : Candidate) (l : List Candidate) :
    insertDesc c l ~ c :: l := by
  induction l with
  | nil => exact List.Perm.refl _
  | cons d ds ih =>
    unfold insertDesc
    by_cases h : d.confidence < c.confidence
    · simp [h]
    · simp only [h, if_false]
      exact (ih.cons d).trans (List.Perm.swap c d ds)

theorem mem_insertDesc {x c : Candidate} {l : List Candidate} :
    x ∈ insertDesc c l ↔ x = c ∨ x ∈ l := by
  rw [(insertDesc_perm c l).mem_iff, List.mem_cons]

theorem insertDesc_sorted {c : Candidate} {l : List Candidate}
    (hl : l.Pairwise confGE) : (insertDesc c l).Pairwise confGE := by
  induction l with
  | nil => simp [insertDesc]
  | cons d ds ih =>
    rw [List.pairwise_cons] at hl
    unfold insertDesc
    by_cases h : d.confidence < c.confidence
    · simp only [h, if_true]
      refine List.pairwise_cons.mpr ⟨?_, List.pairwise_cons.mpr hl⟩
      intro b hb
      rcases List.mem_cons.mp hb with rfl | hb'
      · exact le_of_lt h
      · exact le_trans (hl.1 b hb') (le_of_lt h)
    · simp only [h, if_false]
      refine List.pairwise_cons.mpr ⟨?_, ih hl.2⟩
      intro b hb
      rcases mem_insertDesc.mp hb with rfl | hb'
      · exact le_of_not_lt h
      · exact hl.1 b hb'

theorem sortAux_perm (l : List Candidate) :
    ∀ acc : List Candidate, l.foldl (fun acc c => insertDesc c acc) acc ~ acc ++ l := by
  induction l with
  | nil => intro acc; simp
  | cons c cs ih =>
    intro acc
    simp only [List.foldl_cons]
    refine (ih (insertDesc c acc)).trans ?_
    calc insertDesc c acc ++ cs
        ~ (c :: acc) ++ cs := (insertDesc_perm c acc).append_right cs
      _ ~ acc ++ c :: cs := by
          simp only [List.cons_append]
          exact (List.perm_middle).symm

theorem sortByConfDesc_perm (l : List Candidate) : sortByConfDesc l ~ l := by
  simpa using sortAux_perm l []

theorem sortAux_sorted (l : List Candidate) :
    ∀ acc : List Candidate, acc.Pairwise confGE →
      (l.foldl (fun acc c => insertDesc c acc) acc).Pairwise confGE := by
  induction l with
  | nil => intro acc h; simpa using h
  | cons c cs ih =>
    intro acc h
    simp only [List.foldl_cons]
    exact ih _ (insertDesc_sorted h)

theorem sortByConfDesc_sorted (l : List Candidate) :
    (sortByConfDesc l).Pairwise confGE := by
  exact sortAux_sorted l [] (List.Pairwise.nil)

theorem sorted_desc_unique :
    ∀ {l₁ l₂ : List Candidate}, l₁ ~ l₂ → l₁.Pairwise confGE → l₂.Pairwise confGE →
      l₁.Pairwise confNE → l₁ = l₂ := by
  intro l₁
  induction l₁ with
  | nil => intro l₂ hp _ _ _; simpa using hp.symm.eq_nil
  | cons a as ih =>
    intro l₂ hp hs₁ hs₂ hne₁
    cases l₂ with
    | nil => exact absurd hp.symm (by simp)
    | cons b bs =>
      have hab : a = b := by
        by_contra hne
        have ha₂ : a ∈ b :: bs := hp.subset (List.mem_cons_self a as)
        have hb₁ : b ∈ a :: as := hp.symm.subset (List.mem_cons_self b bs)
        have ha' : a ∈ bs := by
          rcases List.mem_cons.mp ha₂ with h | h
          · exact absurd h hne
          · exact h
        have hb' : b ∈ as := by
          rcases List.mem_cons.mp hb₁ with h | h
          · exact absurd h.symm hne
          · exact h
        have h₁ : a.confidence ≤ b.confidence :=
          (List.pairwise_cons.mp hs₂).1 a ha'
        have h₂ : b.confidence ≤ a.confidence :=
          (List.pairwise_cons.mp hs₁).1 b hb'
        have : a.confidence ≠ b.confidence :=
          (List.pairwise_cons.mp hne₁).1 b hb'
        exact this (le_antisymm h₁ h₂)
      subst hab
      have hp' : as ~ bs := hp.cons_inv
      have := ih hp' (List.pairwise_cons.mp hs₁).2 (List.pairwise_cons.mp hs₂).2
        (List.pairwise_cons.mp hne₁).2
      rw [this]

end ResearchDiscovery

namespace ResearchDiscovery

theorem mem_firstKeys {α : Type} [DecidableEq α] {x : α} :
    ∀ {l : List α}, x ∈ firstKeys l ↔ x ∈ l := by
  intro l
  induction l with
  | nil => simp [firstKeys]
  | cons k ks ih =>
    simp only [firstKeys, List.mem_cons, List.mem_filter, decide_eq_true_eq]
    constructor
    · rintro (rfl | ⟨h, _⟩)
      · exact Or.inl rfl
      · exact Or.inr (ih.mp h)
    · rintro (rfl | h)
      · exact Or.inl rfl
      · by_cases hk : x = k
        · exact Or.inl hk
        · exact Or.inr ⟨ih.mpr h, hk⟩

theorem firstKeys_nodup {α : Type} [DecidableEq α] :
    ∀ (l : List α), (firstKeys l).Nodup := by
  intro l
  induction l with
  | nil => simp [firstKeys]
  | cons k ks ih =>
    simp only [firstKeys, List.nodup_cons]
    constructor
    · intro hmem
      have hk := (List.mem_filter.mp hmem).2
      simp at hk
    · exact ih.filter _

theorem firstKeys_perm {α : Type} [DecidableEq α] {l₁ l₂ : List α} (h : l₁ ~ l₂) :
    firstKeys l₁ ~ firstKeys l₂ := by
  refine (List.perm_ext_iff_of_nodup (firstKeys_nodup l₁) (firstKeys_nodup l₂)).mpr ?_
  intro a
  rw [mem_firstKeys, mem_firstKeys]
  exact h.mem_iff

theorem select_from_sorted_sublist (l : List Candidate) :
    select_from_sorted l <+ l := by
  cases l with
  | nil => simp [select_from_sorted]
  | cons best rest =>
    unfold select_from_sorted
    by_cases h : meets_quality_threshold best = true
    · simp only [h, if_true, List.singleton_append]
      exact (List.filter_sublist rest).cons₂ best
    · simp only [h, if_false, List.nil_append]
      exact (List.filter_sublist rest).cons best

theorem apply_filtering_eq (cands : List Candidate) :
    apply_intelligent_filtering cands =
      (firstKeys (cands.map fk_key)).flatMap (fun k =>
        select_from_sorted (sortByConfDesc
          (cands.filter (fun c => decide (fk_key c = k))))) := by
  unfold apply_intelligent_filtering fk_groups
  rw [List.flatMap_map]

theorem mem_apply_filtering {c : Candidate} {cands : List Candidate}
    (h : c ∈ apply_intelligent_filtering cands) : c ∈ cands := by
  rw [apply_filtering_eq, List.mem_flatMap] at h
  rcases h with ⟨k, _, hc⟩
  have h1 : c ∈ sortByConfDesc (cands.filter (fun c => decide (fk_key c = k))) :=
    (select_from_sorted_sublist _).mem hc
  have h2 : c ∈ cands.filter (fun c => decide (fk_key c = k)) :=
    (sortByConfDesc_perm _).mem_iff.mp h1
  exact (List.mem_filter.mp h2).1

theorem mem_discover {c : Candidate} {tables : List TableDef} {sd : Option SampleData}
    {mc : ℚ} {k : Nat} (h : c ∈ discover_relationships tables sd mc k) :
    c ∈ gen_candidates tables sd mc := by
  unfold discover_relationships at h
  have h1 := (List.take_sublist _ _).mem h
  exact mem_apply_filtering ((sortByConfDesc_perm _).mem_iff.mp h1)

theorem mem_gen_pair {c : Candidate} {sd : Option SampleData} {mc : ℚ}
    {fkD pkD : TableDef} (h : c ∈ gen_pair sd mc fkD pkD) :
    fkD ≠ pkD ∧ c.fk_table = fkD.table_name ∧ c.pk_table = pkD.table_name := by
  unfold gen_pair at h
  by_cases heq : fkD = pkD
  · simp [heq] at h
  · refine ⟨heq, ?_⟩
    simp only [heq, if_false, List.mem_flatMap] at h
    rcases h with ⟨fk_col, _, h⟩
    rcases h with ⟨pk_col, _, h⟩
    by_cases hskip : fkD.table_name = pkD.table_name ∧ fk_col.name = pk_col.name
    · simp [hskip] at h
    · simp only [hskip, if_false] at h
      by_cases hconf : mc ≤ (evaluate_candidate fkD.table_name fk_col pkD.table_name pk_col sd).confidence
      · simp only [hconf, if_true, List.mem_singleton] at h
        subst h
        exact ⟨rfl, rfl⟩
      · simp [hconf] at h

theorem mem_gen_candidates {c : Candidate} {tables : List TableDef}
    {sd : Option SampleData} {mc : ℚ} (h : c ∈ gen_candidates tables sd mc) :
    ∃ fkD ∈ tables, ∃ pkD ∈ tables, fkD ≠ pkD ∧
      c.fk_table = fkD.table_name ∧ c.pk_table = pkD.table_name := by
  unfold gen_candidates at h
  rcases List.mem_flatMap.mp h with ⟨fkD, hfk, h⟩
  rcases List.mem_flatMap.mp h with ⟨pkD, hpk, h⟩
  exact ⟨fkD, hfk, pkD, hpk, mem_gen_pair h⟩

end ResearchDiscovery

namespace ResearchDiscovery

theorem confNE_symm : ∀ {a b : Candidate}, confNE a b → confNE b a :=
  fun h => Ne.symm h

theorem confNE_symmetric : Symmetric confNE := fun _ _ h => Ne.symm h

theorem gen_perm {t₁ t₂ : List TableDef} (h : t₁ ~ t₂) (sd : Option SampleData)
    (mc : ℚ) : gen_candidates t₁ sd mc ~ gen_candidates t₂ sd mc := by
  unfold gen_candidates
  refine Perm.trans ?_ (h.flatMap_right _)
  exact List.Perm.flatMap_left _ (fun fkD _ => h.flatMap_right _)

theorem sort_eq_of_perm {g₁ g₂ : List Candidate} (hp : g₁ ~ g₂)
    (hne : g₁.Pairwise confNE) : sortByConfDesc g₁ = sortByConfDesc g₂ := by
  apply sorted_desc_unique
    ((sortByConfDesc_perm g₁).trans (hp.trans (sortByConfDesc_perm g₂).symm))
    (sortByConfDesc_sorted g₁) (sortByConfDesc_sorted g₂)
  exact ((sortByConfDesc_perm g₁).pairwise_iff (fun hxy => confNE_symm hxy)).mpr hne

theorem mem_select_sort {x : Candidate} {l : List Candidate}
    (h : x ∈ select_from_sorted (sortByConfDesc l)) : x ∈ l :=
  (sortByConfDesc_perm _).mem_iff.mp ((select_from_sorted_sublist _).mem h)

theorem pairwise_select_sort {l : List Candidate} (hne : l.Pairwise confNE) :
    (select_from_sorted (sortByConfDesc l)).Pairwise confNE := by
  have h1 : (sortByConfDesc l).Pairwise confNE :=
    ((sortByConfDesc_perm l).pairwise_iff (fun hxy => confNE_symm hxy)).mpr hne
  exact List.Pairwise.sublist (select_from_sorted_sublist _) h1

theorem apply_filtering_perm {cands₁ cands₂ : List Candidate} (hp : cands₁ ~ cands₂)
    (hne : cands₁.Pairwise confNE) :
    apply_intelligent_filtering cands₁ ~ apply_intelligent_filtering cands₂ := by
  rw [apply_filtering_eq, apply_filtering_eq]
  have hsel : (fun k => select_from_sorted (sortByConfDesc
        (cands₁.filter (fun c => decide (fk_key c = k))))) =
      (fun k => select_from_sorted (sortByConfDesc
        (cands₂.filter (fun c => decide (fk_key c = k))))) :=
    funext (fun k => by rw [sort_eq_of_perm (hp.filter _) (hne.filter _)])
  rw [hsel]
  exact (firstKeys_perm (hp.map fk_key)).flatMap_right _

theorem pairwise_confNE_apply {cands : List Candidate} (hne : cands.Pairwise confNE) :
    (apply_intelligent_filtering cands).Pairwise confNE := by
  rw [apply_filtering_eq, List.flatMap_def]
  rw [List.pairwise_flatten]
  constructor
  · intro l' hl'
    rcases List.mem_map.mp hl' with ⟨k, _, rfl⟩
    exact pairwise_select_sort (hne.filter _)
  · rw [List.pairwise_map]
    have hnodup : (firstKeys (cands.map fk_key)).Nodup := firstKeys_nodup _
    refine hnodup.imp_of_mem ?_
    intro k₁ k₂ _ _ hk12 x hx y hy
    have hx' := List.mem_filter.mp (mem_select_sort hx)
    have hy' := List.mem_filter.mp (mem_select_sort hy)
    have hxy : x ≠ y := by
      intro hxyeq
      apply hk12
      have e1 : fk_key x = k₁ := by simpa using hx'.2
      have e2 : fk_key y = k₂ := by simpa using hy'.2
      rw [← e1, ← e2, hxyeq]
    exact hne.forall confNE_symmetric hx'.1 hy'.1 hxy

end ResearchDiscovery


/-- Auxiliary for C3: the descending if-chain of
`calculate_value_containment_evidence` agrees with the band map stated from
low ratios to high. -/
theorem containment_band_eq (r : ℚ) :
    (if (0.95 : ℚ) ≤ r then (1 : ℚ)
     else if 0.80 ≤ r then 0.8 + (r - 0.80) * 1.33
     else if 0.60 ≤ r then 0.5 + (r - 0.60) * 1.5
     else if 0.30 ≤ r then 0.2 + (r - 0.30) * 1.0
     else r * 0.67) = AdvancedScoring.containment_band_spec r := by
  unfold AdvancedScoring.containment_band_spec
  split_ifs <;> (try rfl) <;> (try ring) <;> linarith

/-- C3, counterexample. The claim says that whenever either side lacks
samples the containment score is the neutral 0.5; in the code
(`calculate_value_containment_evidence`) both sides absent with the default
`containment_ratio = 0.0` yields score 0, not 0.5. Moreover at the
containment ratio 0.9 the code yields 0.8 + 0.1·1.33 = 0.933, while a
linear map of `[0.80, 0.95)` onto `[0.8, 1.0)` would give 14/15. -/
theorem c3_counterexample :
    (AdvancedScoring.value_containment_evidence_score none none 0 = 0 ∧
      ((0 : ℚ) ≠ 0.5)) ∧
      (AdvancedScoring.containment_ratio_spec
          ["0".toList, "1".toList, "2".toList, "3".toList, "4".toList,
           "5".toList, "6".toList, "7".toList, "8".toList, "9".toList]
          ["0".toList, "1".toList, "2".toList, "3".toList, "4".toList,
           "5".toList, "6".toList, "7".toList, "8".toList] = 0.9 ∧
        AdvancedScoring.value_containment_evidence_score
          (some ["0".toList, "1".toList, "2".toList, "3".toList, "4".toList,
                 "5".toList, "6".toList, "7".toList, "8".toList, "9".toList])
          (some ["0".toList, "1".toList, "2".toList, "3".toList, "4".toList,
                 "5".toList, "6".toList, "7".toList, "8".toList]) 0 = 0.933 ∧
        (0.8 + ((0.9 : ℚ) - 0.8) * ((1 - 0.8) / (0.95 - 0.8)) ≠ 0.933)) := by
  exact ⟨⟨by decide, by decide⟩, by decide, by decide, by decide⟩

/-- C3, amended claim: when both sample lists are present,
`calculate_value_containment_evidence` maps
`r = |fk_samples ∩ pk_samples| / |fk_samples|` through the piecewise band
map (whose `[0.80, 0.95)` branch uses slope 1.33, topping out just below
1.0); when either side lacks samples, the caller-supplied
`containment_ratio` (default 0.0) is mapped through the same band map —
there is no neutral-0.5 substitution — and the dimension's weight stays
fixed at 0.20 (it is never halved, and no re-normalization occurs). -/
theorem c3_amended :
    (∀ (fk pk : List Str) (c : ℚ),
        AdvancedScoring.value_containment_evidence_score (some fk) (some pk) c =
          AdvancedScoring.containment_band_spec
            (AdvancedScoring.containment_ratio_spec fk pk)) ∧
    (∀ c : ℚ, AdvancedScoring.value_containment_evidence_score none none c =
        AdvancedScoring.containment_band_spec c) ∧
    (∀ (fk : List Str) (c : ℚ),
        AdvancedScoring.value_containment_evidence_score (some fk) none c =
          AdvancedScoring.containment_band_spec c) ∧
    (∀ (pk : List Str) (c : ℚ),
        AdvancedScoring.value_containment_evidence_score none (some pk) c =
          AdvancedScoring.containment_band_spec c) ∧
    AdvancedScoring.containment_weight = 0.20 := by
  refine ⟨?_, ?_, ?_, ?_, rfl⟩
  · intro fk pk c
    have hratio :
        (if fk.dedup.length = 0 then (0 : ℚ)
         else ((fk.dedup.filter (fun v => pk.dedup.contains v)).length : ℚ) /
           (fk.dedup.length : ℚ)) = AdvancedScoring.containment_ratio_spec fk pk := by
      unfold AdvancedScoring.containment_ratio_spec
      by_cases h : fk.dedup = []
      · simp [h]
      · rw [if_neg (fun h0 => h (List.length_eq_zero.mp h0)), if_neg h]
        rfl
    simp only [AdvancedScoring.value_containment_evidence_score]
    rw [hratio]
    exact containment_band_eq _
  · intro c
    unfold AdvancedScoring.value_containment_evidence_score
    exact containment_band_eq c
  · intro fk c
    unfold AdvancedScoring.value_containment_evidence_score
    exact containment_band_eq c
  · intro pk c
    unfold AdvancedScoring.value_containment_evidence_score
    exact containment_band_eq c

/-- C4, counterexample. The claim says that below the three equality tiers
the evidence score equals the normalized Levenshtein similarity; on the
columns `ABCDE`/`ABCDF` the Levenshtein similarity is 0.8 but
`calculate_name_similarity_evidence` returns 0.70 (its banded fallback). -/
theorem c4_counterexample :
    AdvancedScoring.name_similarity_evidence_score ("ABCDE".toList) ("ABCDF".toList)
        = 0.70 ∧
      AdvancedScoring.calculate_levenshtein_similarity ("ABCDE".toList) ("ABCDF".toList)
        = 0.8 ∧
      ((0.70 : ℚ) ≠ 0.8) := by
  refine ⟨by decide, by decide, by decide⟩

/-- C4, amended claim: `calculate_name_similarity_evidence` returns 1.0 on
exact upper-cased match, 0.95 when both non-empty core entities match, 0.90
when the cores are entity variants, and otherwise a banded transformation of
the Levenshtein similarity `L` — `L ≥ 0.8 → 0.70 + 0.5·(L − 0.8)`,
`0.6 ≤ L < 0.8 → 0.40 + 1.5·(L − 0.6)`, else `min 0.40 L` — with the
higher-precedence tests consulted in that order before the fallback. -/
theorem c4_amended (fk pk : Str) :
    AdvancedScoring.name_similarity_evidence_score fk pk =
      AdvancedScoring.name_similarity_spec fk pk := by
  unfold AdvancedScoring.name_similarity_evidence_score AdvancedScoring.name_similarity_spec
  by_cases h1 : upperStr fk = upperStr pk
  · simp [h1]
  · have hcore : (if (AdvancedScoring.extract_core_entity fk ≠ [] ∧
          AdvancedScoring.extract_core_entity pk ≠ [])
        then (AdvancedScoring.extract_core_entity fk =
          AdvancedScoring.extract_core_entity pk) else False) ↔
        (AdvancedScoring.extract_core_entity fk = AdvancedScoring.extract_core_entity pk ∧
          AdvancedScoring.extract_core_entity fk ≠ [] ∧
          AdvancedScoring.extract_core_entity pk ≠ []) := by
      by_cases h2 : AdvancedScoring.extract_core_entity fk ≠ [] ∧
          AdvancedScoring.extract_core_entity pk ≠ [] <;> simp [h2]
    simp only [h1, if_false, hcore]
    split_ifs <;> first | rfl | ring

/-- C5: confidence is monotone in every evidence dimension, both for the
research pipeline's `_calculate_confidence` (weighted sum clamped to
`[0, 1]`) and for the advanced scorer's weighted-average
`calculate_comprehensive_confidence`. -/
theorem c5_confidence_monotone
    (ns tc vc ss dk ns' tc' vc' ss' dk' sp st ca sp' st' ca' : ℚ)
    (h1 : ns ≤ ns') (h2 : tc ≤ tc') (h3 : vc ≤ vc') (h4 : ss ≤ ss') (h5 : dk ≤ dk')
    (h6 : sp ≤ sp') (h7 : st ≤ st') (h8 : ca ≤ ca') :
    ResearchDiscovery.calculate_confidence ns tc vc ss dk ≤
        ResearchDiscovery.calculate_confidence ns' tc' vc' ss' dk' ∧
      AdvancedScoring.comprehensive_confidence ns tc sp dk vc st ca ≤
        AdvancedScoring.comprehensive_confidence ns' tc' sp' dk' vc' st' ca' := by
  constructor
  · unfold ResearchDiscovery.calculate_confidence
    apply min_le_min le_rfl
    apply max_le_max le_rfl
    nlinarith [h1, h2, h3, h4, h5]
  · unfold AdvancedScoring.comprehensive_confidence AdvancedScoring.name_weight
      AdvancedScoring.type_weight AdvancedScoring.containment_weight
      AdvancedScoring.schema_weight AdvancedScoring.domain_weight
      AdvancedScoring.statistical_weight AdvancedScoring.cardinality_weight
    apply div_le_div_of_nonneg_right ?_ (by norm_num)
    nlinarith [h1, h2, h3, h4, h5, h6, h7, h8]

/-- C5, witness. -/
theorem c5_witness :
    ResearchDiscovery.calculate_confidence 0 0 0 0 0 ≤
        ResearchDiscovery.calculate_confidence 1 1 1 1 1 ∧
      AdvancedScoring.comprehensive_confidence 0 0 0 0 0 0 0 ≤
        AdvancedScoring.comprehensive_confidence 1 1 1 1 1 1 1 :=
  c5_confidence_monotone 0 0 0 0 0 1 1 1 1 1 0 0 0 1 1 1
    (by norm_num) (by norm_num) (by norm_num) (by norm_num) (by norm_num)
    (by norm_num) (by norm_num) (by norm_num)

/-- Auxiliary for C7: a malformed table entry makes `convert_table` raise. -/
theorem convert_table_malformed {t : Boundary.TablePayload}
    (hm : Boundary.malformed_table t) :
    ∃ e, Boundary.convert_table t = Except.error e := by
  unfold Boundary.convert_table
  by_cases h1 : trimStr t.identifier = []
  · exact ⟨_, by rw [if_pos h1]⟩
  · rw [if_neg h1]
    rcases hm with h | h | h | h
    · exact absurd h h1
    · rw [h]
      exact ⟨_, rfl⟩
    all_goals {
      cases hpart : Boundary.identifier_table_part (trimStr t.identifier) with
      | none => exact ⟨_, rfl⟩
      | some it =>
        dsimp only
        by_cases h2 : trimStr it = []
        · exact ⟨_, by rw [if_pos h2]⟩
        · rw [if_neg h2, h]
          exact ⟨_, rfl⟩
    }

/-- C7, counterexample. The claim says a malformed table is skipped with a
note while the rest of the batch is analysed; in the code a batch containing
one malformed table fails as a whole (`_tables_payload_to_raw_tables`
raises), although the same batch without it succeeds. -/
theorem c7_counterexample :
    Boundary.exceptOk (Boundary.tables_payload_to_raw_tables [Examples.goodPayload]) = true ∧
      Boundary.exceptOk (Boundary.tables_payload_to_raw_tables
        [Examples.goodPayload, Examples.badPayload]) = false := by
  exact ⟨by decide, by decide⟩

/-- C7, amended claim: a malformed table definition (missing table name,
unparseable identifier, or missing/empty column list) anywhere in the batch
makes `_tables_payload_to_raw_tables` raise, aborting the whole call: no
table of the batch is returned and no note is recorded. -/
theorem c7_amended (pre post : List Boundary.TablePayload) (t : Boundary.TablePayload)
    (hm : Boundary.malformed_table t) :
    Boundary.exceptOk (Boundary.tables_payload_to_raw_tables (pre ++ t :: post)) = false := by
  induction pre with
  | nil =>
    rcases convert_table_malformed hm with ⟨e, he⟩
    simp only [List.nil_append]
    unfold Boundary.tables_payload_to_raw_tables
    rw [he]
    rfl
  | cons p ps ih =>
    simp only [List.cons_append]
    unfold Boundary.tables_payload_to_raw_tables
    cases hc : Boundary.convert_table p with
    | error e => rfl
    | ok raw =>
      cases hr : Boundary.tables_payload_to_raw_tables (ps ++ t :: post) with
      | error e => rfl
      | ok raws =>
        rw [hr] at ih
        exact absurd (ih) (by simp [Boundary.exceptOk])

/-- C7, witness. -/
theorem c7_witness :
    Boundary.malformed_table Examples.badPayload ∧
      Boundary.exceptOk (Boundary.tables_payload_to_raw_tables
        [Examples.goodPayload, Examples.badPayload]) = false :=
  ⟨Or.inr (Or.inr (Or.inl rfl)),
    c7_amended [Examples.goodPayload] [] Examples.badPayload
      (Or.inr (Or.inr (Or.inl rfl)))⟩

/-- C8, counterexample. The claim says every discovery entry point defaults
`timeout_seconds` to 30.0; `discover_relationships_from_table_definitions`
defaults it to 15.0. -/
theorem c8_counterexample :
    Boundary.from_table_definitions_defaults.timeout_seconds = some 15 ∧
      some (15 : ℚ) ≠ some (30 : ℚ) := by
  exact ⟨rfl, by decide⟩

/-- C8, amended claim: every discovery entry point defaults `min_confidence`
to 0.5; `timeout_seconds` defaults to 30.0 for the tables and schema entry
points but to 15.0 for the table-definitions entry point; `max_tables`
defaults to 60 for the schema entry point and is unlimited for the other
two. -/
theorem c8_amended :
    Boundary.from_tables_defaults.min_confidence = 0.5 ∧
      Boundary.from_table_definitions_defaults.min_confidence = 0.5 ∧
      Boundary.from_schema_defaults.min_confidence = 0.5 ∧
      Boundary.from_tables_defaults.timeout_seconds = some 30 ∧
      Boundary.from_schema_defaults.timeout_seconds = some 30 ∧
      Boundary.from_table_definitions_defaults.timeout_seconds = some 15 ∧
      Boundary.from_schema_defaults.max_tables = some 60 ∧
      Boundary.from_tables_defaults.max_tables = none ∧
      Boundary.from_table_definitions_defaults.max_tables = none := by
  refine ⟨by decide, by decide, by decide, by decide, by decide, by decide, rfl, rfl, rfl⟩

/-- C10: in the payload conversion, a `sample_values` (or `values`) entry
that is itself a string or bytes is treated as having no samples, and a
non-empty list value is kept with every element converted by `str`. -/
theorem c10_sample_value_coercion :
    (∀ s : Str, s ≠ [] → ∀ v : Boundary.PyVal,
        Boundary.coerce_samples (Boundary.PyVal.vStr s) v = none) ∧
      (∀ bs : List Nat, bs ≠ [] → ∀ v : Boundary.PyVal,
        Boundary.coerce_samples (Boundary.PyVal.vBytes bs) v = none) ∧
      (∀ l : List Boundary.PyVal, l ≠ [] → ∀ v : Boundary.PyVal,
        Boundary.coerce_samples (Boundary.PyVal.vList l) v =
          some (l.map Boundary.pyStr)) ∧
      (∀ l : List Boundary.PyVal, l ≠ [] →
        Boundary.coerce_samples Boundary.PyVal.vNone (Boundary.PyVal.vList l) =
          some (l.map Boundary.pyStr)) := by
  refine ⟨?_, ?_, ?_, ?_⟩
  · intro s hs v
    obtain ⟨a, as_, rfl⟩ := List.exists_cons_of_ne_nil hs
    rfl
  · intro bs hbs v
    obtain ⟨a, as_, rfl⟩ := List.exists_cons_of_ne_nil hbs
    rfl
  · intro l hl v
    obtain ⟨a, as_, rfl⟩ := List.exists_cons_of_ne_nil hl
    rfl
  · intro l hl
    obtain ⟨a, as_, rfl⟩ := List.exists_cons_of_ne_nil hl
    rfl

/-- C10, witness. -/
theorem c10_witness :
    ("AB".toList ≠ ([] : Str)) ∧
      Boundary.coerce_samples (Boundary.PyVal.vStr ("AB".toList)) Boundary.PyVal.vNone
        = none :=
  ⟨by decide,
    c10_sample_value_coercion.1 ("AB".toList) (by decide) Boundary.PyVal.vNone⟩

namespace ResearchDiscovery

theorem is_significantly_different_iff (c1 c2 : Candidate) :
    is_significantly_different c1 c2 = true ↔
      (c1.pk_table ≠ c2.pk_table ∨
        0.2 < |c1.name_similarity - c2.name_similarity|) := by
  unfold is_significantly_different
  by_cases h1 : c1.pk_table ≠ c2.pk_table <;>
    by_cases h2 : (0.2 : ℚ) < |c1.name_similarity - c2.name_similarity| <;>
    simp [h1, h2]

theorem is_significantly_different_self (c : Candidate) :
    is_significantly_different c c = false := by
  have h := is_significantly_different_iff c c
  rw [sub_self, abs_zero] at h
  have : ¬(c.pk_table ≠ c.pk_table ∨ (0.2 : ℚ) < 0) := by
    rintro (hne | hlt)
    · exact hne rfl
    · norm_num at hlt
  rcases Bool.eq_false_or_eq_true (is_significantly_different c c) with ht | hf
  · exact absurd (h.mp ht) this
  · exact hf

theorem extra_accept_iff (best c : Candidate) :
    extra_accept best c = true ↔
      (best.confidence - 0.1 ≤ c.confidence ∧
        (c.pk_table ≠ best.pk_table ∨
          0.2 < |c.name_similarity - best.name_similarity|) ∧
        quality_gate_spec c) := by
  unfold extra_accept
  rw [Bool.and_eq_true, Bool.and_eq_true, decide_eq_true_iff,
    is_significantly_different_iff, meets_quality_threshold_iff]
  tauto

end ResearchDiscovery

/-- C1: per FK column, after sorting that column's surviving candidates by
confidence descending, the top candidate is accepted by
`_apply_intelligent_filtering` if and only if it passes the quality gate:
`name_similarity ≥ 0.7`, or `domain_prior ≥ 0.8`, or at least two of
{type_compatibility ≥ 0.9, value_containment ≥ 0.8, domain_prior ≥ 0.6}. -/
theorem c1_top_candidate_gate (group : List ResearchDiscovery.Candidate)
    (best : ResearchDiscovery.Candidate) (rest : List ResearchDiscovery.Candidate)
    (h : ResearchDiscovery.sortByConfDesc group = best :: rest) :
    best ∈ ResearchDiscovery.select_from_sorted (ResearchDiscovery.sortByConfDesc group) ↔
      ResearchDiscovery.quality_gate_spec best := by
  rw [h]
  simp only [ResearchDiscovery.select_from_sorted]
  constructor
  · intro hmem
    by_cases hq : ResearchDiscovery.meets_quality_threshold best = true
    · exact (ResearchDiscovery.meets_quality_threshold_iff best).mp hq
    · exfalso
      rw [if_neg hq, List.nil_append, List.mem_filter] at hmem
      have hacc := hmem.2
      unfold ResearchDiscovery.extra_accept at hacc
      rw [Bool.and_eq_true, Bool.and_eq_true] at hacc
      rw [ResearchDiscovery.is_significantly_different_self best] at hacc
      exact Bool.false_ne_true hacc.1.2
  · intro hq
    rw [if_pos ((ResearchDiscovery.meets_quality_threshold_iff best).mpr hq)]
    exact List.mem_append_left _ (List.mem_singleton_self best)

/-- C1, witness. -/
theorem c1_witness :
    ResearchDiscovery.sortByConfDesc [Examples.candAB] = [Examples.candAB] ∧
      (Examples.candAB ∈ ResearchDiscovery.select_from_sorted
          (ResearchDiscovery.sortByConfDesc [Examples.candAB]) ↔
        ResearchDiscovery.quality_gate_spec Examples.candAB) :=
  ⟨by decide, c1_top_candidate_gate [Examples.candAB] Examples.candAB [] (by decide)⟩

/-- C2, counterexample. The claim makes the tie-band acceptance require the
PK table to differ AND the name similarity to differ by more than 0.2; in
the code the group `[candAB, candAD]` accepts `candAD` as an additional
candidate although its name similarity equals the winner's exactly. -/
theorem c2_counterexample :
    ResearchDiscovery.select_from_sorted (ResearchDiscovery.sortByConfDesc
        [Examples.candAB, Examples.candAD]) = [Examples.candAB, Examples.candAD] ∧
      Examples.candAD.pk_table ≠ Examples.candAB.pk_table ∧
      Examples.candAD.name_similarity = Examples.candAB.name_similarity ∧
      ¬(0.2 < |Examples.candAD.name_similarity - Examples.candAB.name_similarity|) := by
  exact ⟨by decide, by decide, by decide, by decide⟩

/-- C2, amended claim: a non-winner candidate of an FK column's group is
additionally accepted exactly when its confidence is within the 0.10 tie
band of the winner's, AND (its PK table differs from the winner's OR its
name similarity differs from the winner's by more than 0.2), AND the
candidate itself passes the quality gate. -/
theorem c2_tie_band (group : List ResearchDiscovery.Candidate)
    (best c : ResearchDiscovery.Candidate) (rest : List ResearchDiscovery.Candidate)
    (h : ResearchDiscovery.sortByConfDesc group = best :: rest)
    (hc : c ∈ rest) (hne : c ≠ best) :
    c ∈ ResearchDiscovery.select_from_sorted (ResearchDiscovery.sortByConfDesc group) ↔
      (best.confidence - 0.1 ≤ c.confidence ∧
        (c.pk_table ≠ best.pk_table ∨
          0.2 < |c.name_similarity - best.name_similarity|) ∧
        ResearchDiscovery.quality_gate_spec c) := by
  rw [h]
  simp only [ResearchDiscovery.select_from_sorted]
  rw [← ResearchDiscovery.extra_accept_iff]
  constructor
  · intro hmem
    rcases List.mem_append.mp hmem with h1 | h2
    · exfalso
      by_cases hq : ResearchDiscovery.meets_quality_threshold best = true
      · rw [if_pos hq] at h1
        exact hne (List.mem_singleton.mp h1)
      · rw [if_neg hq] at h1
        exact absurd h1 (List.not_mem_nil c)
    · exact (List.mem_filter.mp h2).2
  · intro hacc
    exact List.mem_append_right _ (List.mem_filter.mpr ⟨hc, hacc⟩)

/-- C2, witness. -/
theorem c2_witness :
    ResearchDiscovery.sortByConfDesc [Examples.candAB, Examples.candAD] =
        [Examples.candAB, Examples.candAD] ∧
      Examples.candAD ∈ [Examples.candAD] ∧
      Examples.candAD ≠ Examples.candAB ∧
      (Examples.candAD ∈ ResearchDiscovery.select_from_sorted
          (ResearchDiscovery.sortByConfDesc [Examples.candAB, Examples.candAD]) ↔
        (Examples.candAB.confidence - 0.1 ≤ Examples.candAD.confidence ∧
          (Examples.candAD.pk_table ≠ Examples.candAB.pk_table ∨
            0.2 < |Examples.candAD.name_similarity - Examples.candAB.name_similarity|) ∧
          ResearchDiscovery.quality_gate_spec Examples.candAD)) :=
  ⟨by decide, by decide, by decide,
    c2_tie_band [Examples.candAB, Examples.candAD] Examples.candAB Examples.candAD
      [Examples.candAD] (by decide) (by decide) (by decide)⟩

/-- C6, counterexample. The claim says a candidate with
`fk_table == pk_table` is always dropped; when two distinct table
definitions share the table name `T`, the research pipeline emits an
accepted relationship from `T` to `T`. -/
theorem c6_counterexample :
    (ResearchDiscovery.discover_relationships [Examples.dupT1, Examples.dupT2]
        none 0.5 100).map (fun c => (c.fk_table, c.pk_table)) =
      [("T".toList, "T".toList)] := by
  decide

/-- C6, amended claim: provided no two table definitions share a table
name, every relationship returned by `discover_relationships` satisfies
`fk_table ≠ pk_table` (self-references are dropped, even when a
self-referencing source column exists, because same-definition pairs are
skipped at enumeration). -/
theorem c6_no_self_join (tables : List ResearchDiscovery.TableDef)
    (sd : Option ResearchDiscovery.SampleData) (mc : ℚ) (k : Nat)
    (hnames : tables.Pairwise (fun a b => a.table_name ≠ b.table_name)) :
    ∀ c ∈ ResearchDiscovery.discover_relationships tables sd mc k,
      c.fk_table ≠ c.pk_table := by
  intro c hc
  rcases ResearchDiscovery.mem_gen_candidates (ResearchDiscovery.mem_discover hc) with
    ⟨fkD, hfk, pkD, hpk, hne, hcf, hcp⟩
  rw [hcf, hcp]
  have hsymm : Symmetric (fun a b : ResearchDiscovery.TableDef =>
      a.table_name ≠ b.table_name) := fun _ _ h e => h e.symm
  exact hnames.forall hsymm hfk hpk hne

/-- C6, witness. -/
theorem c6_witness :
    ([Examples.tblA, Examples.tblB].Pairwise
        (fun a b : ResearchDiscovery.TableDef => a.table_name ≠ b.table_name)) ∧
      ∀ c ∈ ResearchDiscovery.discover_relationships [Examples.tblA, Examples.tblB]
          none 0.5 100, c.fk_table ≠ c.pk_table :=
  ⟨by decide, c6_no_self_join [Examples.tblA, Examples.tblB] none 0.5 100 (by decide)⟩

/-- C9, counterexample. The claim says permuting the input table list keeps
the output ordering identical; the four clone tables below are a
counterexample: the rotated input yields the same six relationships in a
different order (stable sorting leaves tied confidences in input order). -/
theorem c9_counterexample :
    ([Examples.tblA, Examples.tblB, Examples.tblC, Examples.tblD] :
        List ResearchDiscovery.TableDef) ~
        [Examples.tblC, Examples.tblD, Examples.tblA, Examples.tblB] ∧
      ResearchDiscovery.discover_relationships
          [Examples.tblA, Examples.tblB, Examples.tblC, Examples.tblD] none 0.5 100 ≠
        ResearchDiscovery.discover_relationships
          [Examples.tblC, Examples.tblD, Examples.tblA, Examples.tblB] none 0.5 100 := by
  exact ⟨by decide, by decide⟩

/-- C9, amended claim: discovery is input-order invariant only in the
absence of confidence ties: if all surviving candidates have pairwise
distinct confidences, permuting the input table list produces the identical
output (same relationships, same confidences, same ordering); with ties the
stable sort makes the output ordering depend on the input order. -/
theorem c9_order_invariance (t₁ t₂ : List ResearchDiscovery.TableDef)
    (sd : Option ResearchDiscovery.SampleData) (mc : ℚ) (k : Nat)
    (hperm : t₁ ~ t₂)
    (hdist : (ResearchDiscovery.gen_candidates t₁ sd mc).Pairwise
      ResearchDiscovery.confNE) :
    ResearchDiscovery.discover_relationships t₁ sd mc k =
      ResearchDiscovery.discover_relationships t₂ sd mc k := by
  unfold ResearchDiscovery.discover_relationships
  rw [ResearchDiscovery.sort_eq_of_perm
    (ResearchDiscovery.apply_filtering_perm (ResearchDiscovery.gen_perm hperm sd mc) hdist)
    (ResearchDiscovery.pairwise_confNE_apply hdist)]

/-- C9, witness. -/
theorem c9_witness :
    (([Examples.tblA, Examples.tblB] : List ResearchDiscovery.TableDef) ~
        [Examples.tblB, Examples.tblA]) ∧
      (ResearchDiscovery.gen_candidates [Examples.tblA, Examples.tblB] none 0.5).Pairwise
        ResearchDiscovery.confNE ∧
      ResearchDiscovery.discover_relationships [Examples.tblA, Examples.tblB] none 0.5 100 =
        ResearchDiscovery.discover_relationships [Examples.tblB, Examples.tblA] none 0.5 100 :=
  ⟨by decide, by decide,
    c9_order_invariance [Examples.tblA, Examples.tblB] [Examples.tblB, Examples.tblA]
      none 0.5 100 (by decide) (by decide)⟩
